import Mathlib

/-!
Shallow embedding of `pyrasterframes/types.py` (the Python bridge layer of
RasterFrames) and proofs about it.

Python strings are modelled as `List Char`; Python exceptions as the error
side of `Except PyErr _`.  The remote JVM gateway is a parameter: its two
byte-conversion functions (`_list_to_bytearray`, `_bytearray_to_list`) are
fields of an `RFGateway` structure, fallible like any remote call.
-/

/-- Python-level failure modes relevant to this layer, using the error
taxonomy of the design (plus the builtin exceptions the code can raise). -/
inductive PyErr where
  | UnsupportedFeature
  | NoActiveContext
  | RemoteCallError
  | AttributeError
  | TypeError
  | ValueError
deriving DecidableEq

/-- Model of the Python substring test `"ud" in name`:
true iff the two-character sequence `ud` occurs contiguously in the list. -/
def hasUD : List Char → Bool
  | [] => false
  | [_] => false
  | c1 :: c2 :: rest => (c1 == 'u' && c2 == 'd') || hasUD (c2 :: rest)

/-- A resolved numpy dtype, identified by its canonical name
(`str(np.dtype(name))`). -/
structure NpDtype where
  name : List Char
deriving DecidableEq

/-- The canonical numpy scalar-dtype names this layer can meet: the names
`str(np_dtype)` yields for the native numeric (and bool) element types. -/
def npDtypeNames : List (List Char) :=
  ["bool", "int8", "uint8", "int16", "uint16", "int32", "uint32",
   "int64", "uint64", "float16", "float32", "float64"].map String.toList

/-- Model of `np.dtype(name)`: succeeds exactly on the canonical native
dtype names, raising `TypeError` otherwise (numpy raises on unknown names). -/
def npDtype (name : List Char) : Except PyErr NpDtype :=
  if name ∈ npDtypeNames then Except.ok ⟨name⟩ else Except.error PyErr.TypeError

/-- `GTCellType`: a GeoTrellis cell type, wrapping its identifier string
(source field `cell_type_name`). -/
structure GTCellType where
  cell_type_name : List Char
deriving DecidableEq

/-- `GTCellType.from_numpy_dtype`: wraps `str(np_dtype)` as a cell type. -/
def GTCellType.from_numpy_dtype (d : NpDtype) : GTCellType := ⟨d.name⟩

/-- `GTCellType.to_numpy_dtype`:
if the name ends with `"raw"` (`['r','a','w'] <:+ name`), strip the last
three characters (`name[:-3]` = `take (length - 3)`) and recurse; else if
the name contains `"ud"`, raise (user-defined NoData unsupported); else
resolve through `np.dtype`. -/
def GTCellType.to_numpy_dtype (ct : GTCellType) : Except PyErr NpDtype :=
  if _h : ['r', 'a', 'w'] <:+ ct.cell_type_name then
    (GTCellType.mk (ct.cell_type_name.take (ct.cell_type_name.length - 3))).to_numpy_dtype
  else if hasUD ct.cell_type_name then
    Except.error PyErr.UnsupportedFeature
  else
    npDtype ct.cell_type_name
termination_by ct.cell_type_name.length
decreasing_by
  obtain ⟨pre, hp⟩ := _h
  simp only [List.length_take]
  have h3 : 3 ≤ ct.cell_type_name.length := by
    rw [← hp, List.length_append]
    simp
  omega

instance {ε α : Type _} [DecidableEq ε] [DecidableEq α] : DecidableEq (Except ε α) := fun a b =>
  match a, b with
  | .error e, .error f =>
    if h : e = f then .isTrue (congrArg Except.error h)
    else .isFalse (fun hh => h (Except.error.inj hh))
  | .error _, .ok _ => .isFalse (fun hh => Except.noConfusion hh)
  | .ok _, .error _ => .isFalse (fun hh => Except.noConfusion hh)
  | .ok x, .ok y =>
    if h : x = y then .isTrue (congrArg Except.ok h)
    else .isFalse (fun hh => h (Except.ok.inj hh))

/-- A dynamically-typed Python value, as far as `GTCellType.__eq__` can
observe it: the `type(other) is type(self)` check distinguishes a
`GTCellType` instance from every other runtime type. -/
inductive PyValue where
  | cellTypeV (ct : GTCellType)
  | strV (s : List Char)
  | intV (n : Int)
  | noneV
deriving DecidableEq

/-- `GTCellType.__eq__`: if `type(other) is type(self)` compare the
`cell_type_name` strings character for character, otherwise return
`False`. -/
def GTCellType.eqPy (self : GTCellType) (other : PyValue) : Bool :=
  match other with
  | .cellTypeV o => self.cell_type_name == o.cell_type_name
  | _ => false

/-- A 2-D numpy array as the codec sees it: a row-major list of rows (outer
axis 0 = rows, inner axis 1 = cols) plus the name of its element dtype. -/
structure NpArray (V : Type) where
  data : List (List V)
  dtype : List Char
deriving DecidableEq

/-- `arr.shape[0]`: the number of rows. -/
def NpArray.shape0 {V : Type} (a : NpArray V) : Nat := a.data.length

/-- `arr.shape[1]`: the number of columns, read off the first row. -/
def NpArray.shape1 {V : Type} (a : NpArray V) : Nat := (a.data.headD []).length

/-- Rectangularity: every row has the common column count (numpy arrays are
rectangular by construction). -/
def NpArray.rect {V : Type} (a : NpArray V) : Prop :=
  ∀ r ∈ a.data, r.length = a.shape1

/-- `arr.flatten().tolist()`: the row-major 1-D sequence of cell values. -/
def NpArray.flat {V : Type} (a : NpArray V) : List V := a.data.flatten

/-- `Tile`: wraps its 2-D cell buffer; the cell type is derived from the
buffer's dtype, never supplied. -/
structure Tile (V : Type) where
  cells : NpArray V
deriving DecidableEq

/-- `self.cell_type = GTCellType.from_numpy_dtype(cells.dtype)`, i.e. the
cell type whose identifier is `str(cells.dtype)`. -/
def Tile.cell_type {V : Type} (t : Tile V) : GTCellType :=
  GTCellType.from_numpy_dtype ⟨t.cells.dtype⟩

/-- `Tile.dimensions`: `[self.cells.shape[1], self.cells.shape[0]]` — the
list `[cols, rows]`, as is conventional in GeoTrellis and RasterFrames. -/
def Tile.dimensions {V : Type} (t : Tile V) : List Nat :=
  [t.cells.shape1, t.cells.shape0]

/-- The remote byte-conversion surface the codec consumes through
`RFContext.call`.  Both conversions cross the gateway and can fail like any
remote call; `_bytearray_to_list` receives whatever `cell_data.cells` holds
(possibly Python `None`, hence `Option`). -/
structure RFGateway (V B : Type) where
  list_to_bytearray : List V → Nat → Nat → Except PyErr B
  bytearray_to_list : Option B → List Char → Nat → Nat → Except PyErr (List V)

/-- Field `cell_context.cell_type` of the structured tile record. -/
structure CellTypeRec where
  cellTypeName : List Char
deriving DecidableEq

/-- Field `cell_context.dimensions` of the structured tile record. -/
structure DimensionsRec where
  cols : Nat
  rows : Nat
deriving DecidableEq

/-- Field `cell_context` of the structured tile record. -/
structure CellContextRec where
  cellType : CellTypeRec
  dimensions : DimensionsRec
deriving DecidableEq

/-- Field `cell_data` of the structured tile record: materialized `cells`
bytes or a lazy remote-source `ref` (whose payload type `R` this layer
treats as opaque — it never constructs one). -/
structure CellDataRec (B R : Type) where
  cells : Option B
  ref : Option R
deriving DecidableEq

/-- The structured tile record (`TileUDT.sqlType` row shape). -/
structure TileRec (B R : Type) where
  cell_context : CellContextRec
  cell_data : CellDataRec B R
deriving DecidableEq

/-- `TileUDT.serialize`: build `cell_context` from the tile's cell type and
`dimensions()` (`[cols, rows] = [shape1, shape0]`, splatted as the two
trailing arguments of the remote call), convert the row-major flattened
buffer to bytes remotely, store it in `cell_data.cells`, leave `ref` null. -/
def TileUDT.serialize {V B R : Type} (gw : RFGateway V B) (t : Tile V) :
    Except PyErr (TileRec B R) := do
  let b ← gw.list_to_bytearray t.cells.flat t.cells.shape1 t.cells.shape0
  pure { cell_context := { cellType := ⟨t.cell_type.cell_type_name⟩,
                           dimensions := { cols := t.cells.shape1, rows := t.cells.shape0 } },
         cell_data := { cells := some b, ref := none } }

/-- `numpy.reshape(list, (rows, cols), order='C')` on a flat list: row-major
chunking into `rows` rows of `cols` cells each. -/
def chunkRows {V : Type} (cols : Nat) : Nat → List V → List (List V)
  | 0, _ => []
  | rows + 1, l => l.take cols :: chunkRows cols rows (l.drop cols)

/-- `numpy.reshape` checks that the element count matches the requested
shape and raises `ValueError` otherwise. -/
def npReshape {V : Type} (l : List V) (rows cols : Nat) :
    Except PyErr (List (List V)) :=
  if l.length = rows * cols then Except.ok (chunkRows cols rows l) else Except.error PyErr.ValueError

/-- `ndarray.astype(d)`: element-wise numeric cast to dtype `d` (the cast
semantics `cast` are numpy's, a parameter of the model), with the result
array carrying dtype `d`. -/
def npAstype {V : Type} (rowsData : List (List V)) (d : NpDtype)
    (cast : NpDtype → V → V) : NpArray V :=
  { data := rowsData.map (fun r => r.map (cast d)), dtype := d.name }

/-- `TileUDT.deserialize`: read the cell-type name and dimensions from
`cell_context`, convert `cell_data.cells` back to a flat value list
remotely, reshape it to `(rows, cols)` in row-major order, cast through
`to_numpy_dtype`, and wrap the buffer in a `Tile`. -/
def TileUDT.deserialize {V B R : Type} (gw : RFGateway V B) (cast : NpDtype → V → V)
    (datum : TileRec B R) : Except PyErr (Tile V) := do
  let cell_type : GTCellType := ⟨datum.cell_context.cellType.cellTypeName⟩
  let cols := datum.cell_context.dimensions.cols
  let rows := datum.cell_context.dimensions.rows
  let cell_data_bytes := datum.cell_data.cells
  let cell_value_list ← gw.bytearray_to_list cell_data_bytes cell_type.cell_type_name cols rows
  let reshaped ← npReshape cell_value_list rows cols
  let d ← cell_type.to_numpy_dtype
  pure (Tile.mk (npAstype reshaped d cast))

/-- The row shape of `RasterSourceUDT.sqlType`: a single non-null binary
field `raster_source_kryo`. -/
structure RasterSourceRow (B : Type) where
  raster_source_kryo : B
deriving DecidableEq

/-- `RasterSourceUDT.serialize`: the body is only the comment
`Not yet implemented. Kryo serialized bytes?` followed by `return None`. -/
def RasterSourceUDT.serialize {O B : Type} (_obj : O) : Option B := none

/-- `RasterSourceUDT.deserialize`: the body evaluates `bytes(datum[0])`,
discards the result, and falls off the end of the function — Python then
returns `None`. -/
def RasterSourceUDT.deserialize {B O : Type} (datum : RasterSourceRow B) : Option O :=
  let _bytes := datum.raster_source_kryo
  none

/-- The remote `RFContext` method surface (`self._jrfctx.<method>(...)`)
that the `RasterFrame` facade forwards to: each field is one remote method
of the JVM-side context, over opaque handle types `JDF` (DataFrame), `JCol`
(Column) and `A` (raster array results). -/
structure JRFContext (JDF JCol A : Type) where
  tileColumns : JDF → List JCol
  spatialKeyColumn : JDF → JCol
  temporalKeyColumn : JDF → Option JCol
  tileLayerMetadata : JDF → List Char
  spatialJoin : JDF → JDF → JDF
  toIntRaster : JDF → List Char → Nat → Nat → A
  toDoubleRaster : JDF → List Char → Nat → Nat → A
  withBounds : JDF → JDF
  withCenter : JDF → JDF
  withCenterLatLng : JDF → JDF
  withSpatialIndex : JDF → JDF

/-- A local `pyspark` `Column` wrapper around a remote column handle. -/
structure Column (JCol : Type) where
  jc : JCol
deriving DecidableEq

/-- A `RasterFrame` instance: the wrapped remote DataFrame handle and the
`_jrfctx` remote-context handle captured at construction
(`self._jrfctx = spark_session.rasterframes._jrfctx`). -/
structure PyRasterFrame (JDF JCol A : Type) where
  jdf : JDF
  jrfctx : JRFContext JDF JCol A

/-- The Python-side `RFContext` object that `SparkContext` carries as its
`_rf_context` attribute. -/
structure RFContextHandle (JDF JCol A : Type) where
  jrfctx : JRFContext JDF JCol A

/-- The `SparkContext` object, which may or may not carry the `_rf_context`
attribute (absent attribute modelled as `none`). -/
structure SparkContextObj (JDF JCol A : Type) where
  rf_context : Option (RFContextHandle JDF JCol A)

/-- The ambient process state: `SparkContext._active_spark_context`, which
is `None` when no Spark context is live in the process. -/
structure PyProcess (JDF JCol A : Type) where
  active_spark_context : Option (SparkContextObj JDF JCol A)

/-- An accessor outcome together with the list of remote methods actually
invoked during it, in order — the remote I/O trace. -/
abbrev Traced (α : Type) : Type := Except PyErr α × List String

/-- The expression `SparkContext._active_spark_context._rf_context`:
attribute access on `None` (no live Spark context), or on a Spark context
lacking the `_rf_context` attribute, raises `AttributeError`. -/
def ambientRFContext {JDF JCol A : Type} (st : PyProcess JDF JCol A) :
    Except PyErr (RFContextHandle JDF JCol A) :=
  match st.active_spark_context with
  | none => Except.error PyErr.AttributeError
  | some sc =>
    match sc.rf_context with
    | none => Except.error PyErr.AttributeError
    | some ctx => Except.ok ctx

/-- No remote engine context is bound in the process: either no Spark
context is live, or the live one carries no `_rf_context`. -/
def noBoundContext {JDF JCol A : Type} (st : PyProcess JDF JCol A) : Prop :=
  ∀ sc, st.active_spark_context = some sc → sc.rf_context = none

/-- `RasterFrame.tileColumns`: forwards to the stored `_jrfctx` handle with
no context check, wrapping each returned handle as a `Column`. -/
def PyRasterFrame.tileColumns {JDF JCol A : Type} (self : PyRasterFrame JDF JCol A) :
    Traced (List (Column JCol)) :=
  (Except.ok ((self.jrfctx.tileColumns self.jdf).map Column.mk), ["tileColumns"])

/-- `RasterFrame.spatialKeyColumn`: forwards to the stored `_jrfctx`. -/
def PyRasterFrame.spatialKeyColumn {JDF JCol A : Type} (self : PyRasterFrame JDF JCol A) :
    Traced (Column JCol) :=
  (Except.ok ⟨self.jrfctx.spatialKeyColumn self.jdf⟩, ["spatialKeyColumn"])

/-- `RasterFrame.temporalKeyColumn`: `col = self._jrfctx.temporalKeyColumn(...)`
then `return col and Column(col)` — `None` stays `None`, a handle is
wrapped. -/
def PyRasterFrame.temporalKeyColumn {JDF JCol A : Type} (self : PyRasterFrame JDF JCol A) :
    Traced (Option (Column JCol)) :=
  (Except.ok (match self.jrfctx.temporalKeyColumn self.jdf with
              | none => none
              | some c => some ⟨c⟩), ["temporalKeyColumn"])

/-- `RasterFrame.tileLayerMetadata`: fetches the metadata JSON string
remotely and parses it locally (`json.loads ∘ str`, modelled by the
parameter `jloads`). -/
def PyRasterFrame.tileLayerMetadata {JDF JCol A M : Type} (jloads : List Char → M)
    (self : PyRasterFrame JDF JCol A) : Traced M :=
  (Except.ok (jloads (self.jrfctx.tileLayerMetadata self.jdf)), ["tileLayerMetadata"])

/-- `RasterFrame.toIntRaster`: forwards to the stored `_jrfctx`. -/
def PyRasterFrame.toIntRaster {JDF JCol A : Type} (self : PyRasterFrame JDF JCol A)
    (colname : List Char) (cols rows : Nat) : Traced A :=
  (Except.ok (self.jrfctx.toIntRaster self.jdf colname cols rows), ["toIntRaster"])

/-- `RasterFrame.toDoubleRaster`: forwards to the stored `_jrfctx`. -/
def PyRasterFrame.toDoubleRaster {JDF JCol A : Type} (self : PyRasterFrame JDF JCol A)
    (colname : List Char) (cols rows : Nat) : Traced A :=
  (Except.ok (self.jrfctx.toDoubleRaster self.jdf colname cols rows), ["toDoubleRaster"])

/-- `RasterFrame.spatialJoin`: first resolves
`SparkContext._active_spark_context._rf_context`, then issues the remote
join and re-wraps the returned handle as a new frame sharing that
context. -/
def PyRasterFrame.spatialJoin {JDF JCol A : Type} (st : PyProcess JDF JCol A)
    (self other : PyRasterFrame JDF JCol A) : Traced (PyRasterFrame JDF JCol A) :=
  match ambientRFContext st with
  | .error e => (Except.error e, [])
  | .ok ctx =>
    (Except.ok ⟨ctx.jrfctx.spatialJoin self.jdf other.jdf, ctx.jrfctx⟩, ["spatialJoin"])

/-- `RasterFrame.withBounds`: ambient context resolution, then the remote
call. -/
def PyRasterFrame.withBounds {JDF JCol A : Type} (st : PyProcess JDF JCol A)
    (self : PyRasterFrame JDF JCol A) : Traced (PyRasterFrame JDF JCol A) :=
  match ambientRFContext st with
  | .error e => (Except.error e, [])
  | .ok ctx => (Except.ok ⟨ctx.jrfctx.withBounds self.jdf, ctx.jrfctx⟩, ["withBounds"])

/-- `RasterFrame.withCenter`: ambient context resolution, then the remote
call. -/
def PyRasterFrame.withCenter {JDF JCol A : Type} (st : PyProcess JDF JCol A)
    (self : PyRasterFrame JDF JCol A) : Traced (PyRasterFrame JDF JCol A) :=
  match ambientRFContext st with
  | .error e => (Except.error e, [])
  | .ok ctx => (Except.ok ⟨ctx.jrfctx.withCenter self.jdf, ctx.jrfctx⟩, ["withCenter"])

/-- `RasterFrame.withCenterLatLng`: ambient context resolution, then the
remote call. -/
def PyRasterFrame.withCenterLatLng {JDF JCol A : Type} (st : PyProcess JDF JCol A)
    (self : PyRasterFrame JDF JCol A) : Traced (PyRasterFrame JDF JCol A) :=
  match ambientRFContext st with
  | .error e => (Except.error e, [])
  | .ok ctx => (Except.ok ⟨ctx.jrfctx.withCenterLatLng self.jdf, ctx.jrfctx⟩, ["withCenterLatLng"])

/-- `RasterFrame.withSpatialIndex`: ambient context resolution, then the
remote call. -/
def PyRasterFrame.withSpatialIndex {JDF JCol A : Type} (st : PyProcess JDF JCol A)
    (self : PyRasterFrame JDF JCol A) : Traced (PyRasterFrame JDF JCol A) :=
  match ambientRFContext st with
  | .error e => (Except.error e, [])
  | .ok ctx => (Except.ok ⟨ctx.jrfctx.withSpatialIndex self.jdf, ctx.jrfctx⟩, ["withSpatialIndex"])

/-- A concrete remote context over `Nat` handles whose temporal-key lookup
finds no column, for exercising the facade at closed inputs. -/
def natEngine : JRFContext Nat Nat Nat :=
  ⟨fun _ => [], fun _ => 0, fun _ => none, fun _ => [], fun a b => a + b,
   fun _ _ _ _ => 0, fun _ _ _ _ => 0, fun d => d, fun d => d, fun d => d, fun d => d⟩

/-- Like `natEngine`, but the remote temporal-key lookup returns the column
handle `7`. -/
def natEngineT : JRFContext Nat Nat Nat :=
  ⟨fun _ => [], fun _ => 0, fun _ => some 7, fun _ => [], fun a b => a + b,
   fun _ _ _ _ => 0, fun _ _ _ _ => 0, fun d => d, fun d => d, fun d => d, fun d => d⟩

/-- Unfolding lemma for the base case of `to_numpy_dtype`: a name that
neither ends in `"raw"` nor contains `"ud"` resolves through `np.dtype`. -/
theorem to_numpy_dtype_base (name : List Char) (h1 : ¬ (['r', 'a', 'w'] <:+ name))
    (h2 : hasUD name = false) :
    GTCellType.to_numpy_dtype ⟨name⟩ = npDtype name := by
  rw [GTCellType.to_numpy_dtype]
  rw [dif_neg h1, if_neg (by simp [h2])]

/-- Unfolding lemma for the recursive case of `to_numpy_dtype`: a trailing
`"raw"` is stripped and resolution recurses. -/
theorem to_numpy_dtype_raw_step (pre : List Char) :
    GTCellType.to_numpy_dtype ⟨pre ++ ['r', 'a', 'w']⟩ = GTCellType.to_numpy_dtype ⟨pre⟩ := by
  conv_lhs => rw [GTCellType.to_numpy_dtype]
  rw [dif_pos ⟨pre, rfl⟩]
  congr 1
  simp [List.length_append, List.take_left']

example : hasUD "int8ud123".toList = true := by decide

example : hasUD "int16".toList = false := by decide

example : GTCellType.to_numpy_dtype ⟨"int16".toList⟩ = Except.ok ⟨"int16".toList⟩ := by
  rw [to_numpy_dtype_base _ (by decide) (by decide)]
  decide

/-- Appending the three characters `raw` to a name neither creates nor
destroys an occurrence of the substring `ud` (no overlap is possible, since
`raw` contains neither `u` nor `d`). -/
theorem hasUD_append_raw (l : List Char) : hasUD (l ++ ['r', 'a', 'w']) = hasUD l := by
  induction l with
  | nil => decide
  | cons c l ih =>
    cases l with
    | nil => simp [hasUD]
    | cons c2 l2 =>
      rw [List.cons_append, List.cons_append]
      rw [show hasUD (c :: c2 :: (l2 ++ ['r', 'a', 'w'])) =
            ((c == 'u' && c2 == 'd') || hasUD (c2 :: (l2 ++ ['r', 'a', 'w']))) from rfl]
      rw [show hasUD (c :: c2 :: l2) = ((c == 'u' && c2 == 'd') || hasUD (c2 :: l2)) from rfl]
      rw [← List.cons_append, ih]

/-- C3: resolving any cell-type identifier that contains the user-defined
NoData marker `"ud"` through `to_numpy_dtype` raises `UnsupportedFeature`
(an `Except.error`, never an `Except.ok` value), regardless of how many
`"raw"` suffixes surround it. -/
theorem to_numpy_dtype_user_defined_nodata (name : List Char) (h : hasUD name = true) :
    GTCellType.to_numpy_dtype ⟨name⟩ = Except.error PyErr.UnsupportedFeature := by
  suffices hgen : ∀ n (nm : List Char), nm.length = n → hasUD nm = true →
      GTCellType.to_numpy_dtype ⟨nm⟩ = Except.error PyErr.UnsupportedFeature from
    hgen name.length name rfl h
  intro n
  induction n using Nat.strong_induction_on with
  | _ n ih =>
    intro nm hlen hud
    by_cases hs : ['r', 'a', 'w'] <:+ nm
    · obtain ⟨pre, hp⟩ := hs
      have hpre : nm.take (nm.length - 3) = pre := by
        rw [← hp, List.length_append]
        simp [List.take_left']
      rw [GTCellType.to_numpy_dtype]
      rw [dif_pos ⟨pre, hp⟩]
      have hudp : hasUD pre = true := by
        rw [← hasUD_append_raw, hp]
        exact hud
      have hlt : pre.length < n := by
        rw [← hlen, ← hp, List.length_append]
        simp
      simp only [hpre]
      exact ih pre.length hlt pre rfl hudp
    · rw [GTCellType.to_numpy_dtype]
      rw [dif_neg hs, if_pos (by simp [hud])]

/-- The claim C3 instantiated at the spec's own example identifier. -/
theorem to_numpy_dtype_user_defined_nodata_witness :
    hasUD "int8ud123".toList = true ∧
      GTCellType.to_numpy_dtype ⟨"int8ud123".toList⟩ = Except.error PyErr.UnsupportedFeature :=
  ⟨by decide, to_numpy_dtype_user_defined_nodata "int8ud123".toList (by decide)⟩

/-- C4: for an identifier without the user-defined NoData marker, appending
the `"raw"` suffix does not change the resolved native dtype: the suffix is
stripped and resolution recurses on the bare identifier. -/
theorem to_numpy_dtype_strips_raw (s : List Char) (_h : hasUD s = false) :
    GTCellType.to_numpy_dtype ⟨s ++ ['r', 'a', 'w']⟩ = GTCellType.to_numpy_dtype ⟨s⟩ :=
  to_numpy_dtype_raw_step s

/-- The claim C4 instantiated at the spec's example: `"int8raw"` resolves to
the same native dtype as `"int8"`. -/
theorem to_numpy_dtype_strips_raw_witness :
    hasUD "int8".toList = false ∧
      GTCellType.to_numpy_dtype ⟨"int8raw".toList⟩ = Except.ok ⟨"int8".toList⟩ := by
  refine ⟨by decide, ?_⟩
  have hsplit : ("int8raw".toList : List Char) = "int8".toList ++ ['r', 'a', 'w'] := by decide
  rw [hsplit, to_numpy_dtype_strips_raw "int8".toList (by decide)]
  rw [to_numpy_dtype_base _ (by decide) (by decide)]
  decide

/-- C5: two `GTCellType` values compare equal exactly when the compared
value is itself a `GTCellType` whose identifier string is identical
character for character; any value of another runtime type (a bare string
included) compares not-equal. -/
theorem celltype_eq_iff (a : GTCellType) (v : PyValue) :
    a.eqPy v = true ↔ ∃ b : GTCellType, v = PyValue.cellTypeV b ∧ a.cell_type_name = b.cell_type_name := by
  cases v with
  | cellTypeV b => simp [GTCellType.eqPy]
  | strV s => simp [GTCellType.eqPy]
  | intV n => simp [GTCellType.eqPy]
  | noneV => simp [GTCellType.eqPy]

/-- C5 exercised at concrete values: equal identifiers compare equal and a
bare identifier string compares not-equal. -/
theorem celltype_eq_iff_witness :
    GTCellType.eqPy ⟨"int8".toList⟩ (PyValue.cellTypeV ⟨"int8".toList⟩) = true ∧
      GTCellType.eqPy ⟨"int8".toList⟩ (PyValue.strV "int8".toList) = false := by
  constructor
  · exact (celltype_eq_iff ⟨"int8".toList⟩ (PyValue.cellTypeV ⟨"int8".toList⟩)).mpr
      ⟨⟨"int8".toList⟩, rfl, rfl⟩
  · decide

/-- C2: for a tile whose buffer has shape `(rows, cols)`, `dimensions()`
returns `[cols, rows]` — width first, the transpose of the buffer's own
shape order. -/
theorem tile_dimensions_swaps {V : Type} (t : Tile V) (rows cols : Nat)
    (h0 : t.cells.shape0 = rows) (h1 : t.cells.shape1 = cols) :
    t.dimensions = [cols, rows] := by
  simp [Tile.dimensions, h0, h1]

/-- C2 at the spec's concrete shape: a 3-row, 5-column integer buffer
reports dimensions `[5, 3]`, never `[3, 5]`. -/
theorem tile_dimensions_swaps_witness :
    (Tile.mk (V := Int) ⟨[[0, 1, 2, 3, 4], [5, 6, 7, 8, 9], [10, 11, 12, 13, 14]],
        "int64".toList⟩).dimensions = [5, 3] :=
  tile_dimensions_swaps _ 3 5 rfl rfl

/-- A rectangular list of rows flattens to `rows * cols` elements. -/
theorem flatten_length_of_rect {V : Type} (c : Nat) (data : List (List V))
    (hc : ∀ r ∈ data, r.length = c) : data.flatten.length = data.length * c := by
  induction data with
  | nil => simp
  | cons r rest ih =>
    simp only [List.flatten_cons, List.length_append, List.length_cons]
    rw [hc r (List.mem_cons_self r rest), ih (fun x hx => hc x (List.mem_cons_of_mem r hx))]
    ring

/-- Row-major chunking is a left inverse of flattening on rectangular data:
reshaping the flat sequence back to `(rows, cols)` recovers the rows. -/
theorem chunkRows_flatten {V : Type} (c : Nat) (data : List (List V))
    (hc : ∀ r ∈ data, r.length = c) :
    chunkRows c data.length data.flatten = data := by
  induction data with
  | nil => rfl
  | cons r rest ih =>
    have hr : r.length = c := hc r (List.mem_cons_self r rest)
    simp only [List.length_cons, List.flatten_cons, chunkRows]
    rw [List.take_left' hr, List.drop_left' hr]
    rw [ih (fun x hx => hc x (List.mem_cons_of_mem r hx))]

/-- Mapping a pointwise-identity function over a list of rows is the
identity. -/
theorem map_map_id {V : Type} (f : V → V) (hf : ∀ v, f v = v) (data : List (List V)) :
    data.map (fun r => r.map f) = data := by
  induction data with
  | nil => rfl
  | cons r rest ih =>
    simp only [List.map_cons, ih, List.cons.injEq, and_true]
    induction r with
    | nil => rfl
    | cons v vs ihr => simp [hf, ihr]

/-- C1: serializing a tile and deserializing the resulting structured
record reproduces the tile exactly — same buffer values, same cell-type
identifier — whenever the buffer is rectangular, its dtype is a native one
that `to_numpy_dtype` resolves to itself, casting a value to its own dtype
is the identity, and the two remote byte conversions invert one another on
the tile's flattened values. -/
theorem tile_serialize_deserialize_roundtrip {V B R : Type} (gw : RFGateway V B)
    (cast : NpDtype → V → V) (t : Tile V) (b : B)
    (hrect : t.cells.rect)
    (hnative : GTCellType.to_numpy_dtype ⟨t.cells.dtype⟩ = Except.ok ⟨t.cells.dtype⟩)
    (hcast : ∀ v, cast ⟨t.cells.dtype⟩ v = v)
    (hser : gw.list_to_bytearray t.cells.flat t.cells.shape1 t.cells.shape0 = Except.ok b)
    (hinv : gw.bytearray_to_list (some b) t.cells.dtype t.cells.shape1 t.cells.shape0 =
      Except.ok t.cells.flat) :
    (TileUDT.serialize (R := R) gw t).bind (TileUDT.deserialize gw cast) = Except.ok t := by
  rw [TileUDT.serialize]
  rw [show t.cell_type.cell_type_name = t.cells.dtype from rfl]
  simp only [bind, Except.bind, hser]
  simp only [TileUDT.deserialize, bind, Except.bind, pure, Except.pure, hinv]
  have hlen : t.cells.flat.length = t.cells.shape0 * t.cells.shape1 := by
    rw [NpArray.flat, flatten_length_of_rect t.cells.shape1 t.cells.data hrect]
    rfl
  rw [npReshape, if_pos hlen]
  simp only [hnative]
  rw [npAstype, NpArray.flat]
  rw [show t.cells.shape0 = t.cells.data.length from rfl]
  rw [chunkRows_flatten t.cells.shape1 t.cells.data hrect]
  rw [map_map_id (cast ⟨t.cells.dtype⟩) hcast t.cells.data]

/-- C1 exercised end-to-end on the spec's 2×3 int16 example tile, with a
concrete gateway that encodes each value into bytes positionally. -/
theorem tile_serialize_deserialize_roundtrip_witness :
    (TileUDT.serialize (R := Unit)
        (RFGateway.mk (fun l _ _ => Except.ok l) (fun ob _ _ _ =>
          match ob with
          | some l => Except.ok l
          | none => Except.error PyErr.RemoteCallError))
        (Tile.mk (V := Int) ⟨[[1, 2, 3], [4, 5, 6]], "int16".toList⟩)).bind
      (TileUDT.deserialize
        (RFGateway.mk (fun l _ _ => Except.ok l) (fun ob _ _ _ =>
          match ob with
          | some l => Except.ok l
          | none => Except.error PyErr.RemoteCallError))
        (fun _ v => v)) =
      Except.ok (Tile.mk (V := Int) ⟨[[1, 2, 3], [4, 5, 6]], "int16".toList⟩) := by
  apply tile_serialize_deserialize_roundtrip
  · intro r hr
    fin_cases hr <;> rfl
  · rw [to_numpy_dtype_base _ (by decide) (by decide)]
    decide
  · intro v
    rfl
  · rfl
  · rfl

/-- C6: when the remote conversion returns bytes `b` for the row-major
flattened buffer and the `(cols, rows)` dimensions, `serialize` produces
exactly the materialized record: `cell_data.cells` holds `b` and
`cell_data.ref` is null. -/
theorem serialize_materialized_record {V B R : Type} (gw : RFGateway V B) (t : Tile V) (b : B)
    (h : gw.list_to_bytearray t.cells.flat t.cells.shape1 t.cells.shape0 = Except.ok b) :
    TileUDT.serialize (R := R) gw t =
      Except.ok { cell_context := { cellType := ⟨t.cell_type.cell_type_name⟩,
                                    dimensions := { cols := t.cells.shape1,
                                                    rows := t.cells.shape0 } },
                  cell_data := { cells := some b, ref := none } } := by
  rw [TileUDT.serialize]
  simp only [bind, Except.bind, h, pure, Except.pure]

/-- C6 at the spec's 2×3 example tile with a concrete gateway. -/
theorem serialize_materialized_record_witness :
    TileUDT.serialize (R := Unit)
        (RFGateway.mk (V := Int) (fun l _ _ => Except.ok l) (fun _ _ _ _ => Except.ok []))
        (Tile.mk ⟨[[1, 2, 3], [4, 5, 6]], "int16".toList⟩) =
      Except.ok { cell_context := { cellType := ⟨"int16".toList⟩,
                                    dimensions := { cols := 3, rows := 2 } },
                  cell_data := { cells := some [1, 2, 3, 4, 5, 6], ref := none } } :=
  serialize_materialized_record _ _ _ rfl

/-- C9: a failed remote byte conversion propagates unchanged: `serialize`
returns exactly the gateway's error (no catch, no retry, no record), and
`deserialize` returns exactly the gateway's error (no tile). -/
theorem gateway_failure_propagates {V B R : Type} (gw : RFGateway V B)
    (cast : NpDtype → V → V) (t : Tile V) (datum : TileRec B R) (e e2 : PyErr) :
    (gw.list_to_bytearray t.cells.flat t.cells.shape1 t.cells.shape0 = Except.error e →
      TileUDT.serialize (R := R) gw t = Except.error e) ∧
    (gw.bytearray_to_list datum.cell_data.cells datum.cell_context.cellType.cellTypeName
        datum.cell_context.dimensions.cols datum.cell_context.dimensions.rows =
          Except.error e2 →
      TileUDT.deserialize gw cast datum = Except.error e2) := by
  constructor
  · intro h
    rw [TileUDT.serialize]
    simp only [bind, Except.bind, h]
  · intro h
    simp only [TileUDT.deserialize, bind, Except.bind, h]

/-- C9 at a concrete always-failing gateway: both codec directions surface
the remote error itself. -/
theorem gateway_failure_propagates_witness :
    TileUDT.serialize (R := Unit)
        (RFGateway.mk (V := Int) (B := List Int) (fun _ _ _ => Except.error PyErr.RemoteCallError)
          (fun _ _ _ _ => Except.error PyErr.RemoteCallError))
        (Tile.mk ⟨[[1, 2], [3, 4]], "int32".toList⟩) = Except.error PyErr.RemoteCallError ∧
      TileUDT.deserialize
        (RFGateway.mk (V := Int) (B := List Int) (fun _ _ _ => Except.error PyErr.RemoteCallError)
          (fun _ _ _ _ => Except.error PyErr.RemoteCallError))
        (fun _ v => v)
        (TileRec.mk (R := Unit) ⟨⟨"int32".toList⟩, ⟨2, 2⟩⟩ ⟨some [1, 2, 3, 4], none⟩) =
        Except.error PyErr.RemoteCallError :=
  ⟨(gateway_failure_propagates _ (fun _ v => v) _
      (TileRec.mk (R := Unit) ⟨⟨"int32".toList⟩, ⟨2, 2⟩⟩ ⟨some [1, 2, 3, 4], none⟩)
      PyErr.RemoteCallError PyErr.RemoteCallError).1 rfl,
   (gateway_failure_propagates _ (fun _ v => v)
      (Tile.mk (V := Int) ⟨[[1, 2], [3, 4]], "int32".toList⟩) _
      PyErr.RemoteCallError PyErr.RemoteCallError).2 rfl⟩

/-- C10: the remote-source codec is an unimplemented capability gap —
`deserialize` returns `None` for every datum, and `serialize` returns
`None` for every object. -/
theorem rastersource_codec_unimplemented {O B : Type} (datum : RasterSourceRow B) (obj : O) :
    RasterSourceUDT.deserialize (O := O) datum = none ∧
      RasterSourceUDT.serialize (B := B) obj = none :=
  ⟨rfl, rfl⟩

/-- C7 as stated is false on the code: with no Spark context live in the
process, `spatialJoin` raises `AttributeError` (from
`SparkContext._active_spark_context._rf_context` on `None`), not
`NoActiveContext`; and `tileColumns` performs its remote call with no
context check at all instead of raising. -/
theorem frame_accessor_no_context_counterexample :
    PyRasterFrame.spatialJoin (PyProcess.mk none : PyProcess Nat Nat Nat)
        ⟨0, natEngine⟩ ⟨1, natEngine⟩ = (Except.error PyErr.AttributeError, []) ∧
      PyRasterFrame.tileColumns (⟨0, natEngine⟩ : PyRasterFrame Nat Nat Nat) =
        (Except.ok [], ["tileColumns"]) ∧
      PyErr.AttributeError ≠ PyErr.NoActiveContext :=
  ⟨rfl, rfl, by decide⟩

/-- C7 amended: with no bound engine context, the accessors that resolve
the ambient context (`spatialJoin`, `withBounds`, `withCenter`,
`withCenterLatLng`, `withSpatialIndex`) raise `AttributeError` — not
`NoActiveContext` — before any remote I/O (empty trace), while the
accessors using the handle stored at construction (`tileColumns`,
`spatialKeyColumn`, `temporalKeyColumn`, `tileLayerMetadata`,
`toIntRaster`, `toDoubleRaster`) perform their remote call without any
context check. -/
theorem frame_accessors_unbound_context {JDF JCol A M : Type} (st : PyProcess JDF JCol A)
    (self other : PyRasterFrame JDF JCol A) (jloads : List Char → M)
    (colname : List Char) (cols rows : Nat) (h : noBoundContext st) :
    PyRasterFrame.spatialJoin st self other = (Except.error PyErr.AttributeError, []) ∧
      PyRasterFrame.withBounds st self = (Except.error PyErr.AttributeError, []) ∧
      PyRasterFrame.withCenter st self = (Except.error PyErr.AttributeError, []) ∧
      PyRasterFrame.withCenterLatLng st self = (Except.error PyErr.AttributeError, []) ∧
      PyRasterFrame.withSpatialIndex st self = (Except.error PyErr.AttributeError, []) ∧
      (PyRasterFrame.tileColumns self).2 = ["tileColumns"] ∧
      (PyRasterFrame.spatialKeyColumn self).2 = ["spatialKeyColumn"] ∧
      (PyRasterFrame.temporalKeyColumn self).2 = ["temporalKeyColumn"] ∧
      (PyRasterFrame.tileLayerMetadata jloads self).2 = ["tileLayerMetadata"] ∧
      (PyRasterFrame.toIntRaster self colname cols rows).2 = ["toIntRaster"] ∧
      (PyRasterFrame.toDoubleRaster self colname cols rows).2 = ["toDoubleRaster"] := by
  have hamb : ambientRFContext st = Except.error PyErr.AttributeError := by
    cases hsc : st.active_spark_context with
    | none => simp [ambientRFContext, hsc]
    | some sc => simp [ambientRFContext, hsc, h sc hsc]
  refine ⟨?_, ?_, ?_, ?_, ?_, rfl, rfl, rfl, rfl, rfl, rfl⟩ <;>
    simp [PyRasterFrame.spatialJoin, PyRasterFrame.withBounds, PyRasterFrame.withCenter,
      PyRasterFrame.withCenterLatLng, PyRasterFrame.withSpatialIndex, hamb]

/-- The amended C7 exercised at a concrete unbound process state. -/
theorem frame_accessors_unbound_context_witness :
    PyRasterFrame.spatialJoin (PyProcess.mk none : PyProcess Nat Nat Nat)
        ⟨2, natEngine⟩ ⟨3, natEngine⟩ = (Except.error PyErr.AttributeError, []) :=
  (frame_accessors_unbound_context (PyProcess.mk none) ⟨2, natEngine⟩ ⟨3, natEngine⟩
    (fun s => s) [] 0 0 (fun _ h => Option.noConfusion h)).1

/-- C8: `temporalKeyColumn` on a frame whose metadata has no temporal key
returns `None` without raising, and wraps the handle as a `Column` when the
remote engine returns one. -/
theorem temporal_key_column_optional {JDF JCol A : Type} (self : PyRasterFrame JDF JCol A) :
    (self.jrfctx.temporalKeyColumn self.jdf = none →
      PyRasterFrame.temporalKeyColumn self = (Except.ok none, ["temporalKeyColumn"])) ∧
      (∀ c, self.jrfctx.temporalKeyColumn self.jdf = some c →
        PyRasterFrame.temporalKeyColumn self = (Except.ok (some ⟨c⟩), ["temporalKeyColumn"])) := by
  constructor
  · intro h
    simp [PyRasterFrame.temporalKeyColumn, h]
  · intro c h
    simp [PyRasterFrame.temporalKeyColumn, h]

/-- C8 at concrete engines: one with no temporal key column, one returning
the handle `7`. -/
theorem temporal_key_column_optional_witness :
    PyRasterFrame.temporalKeyColumn (⟨0, natEngine⟩ : PyRasterFrame Nat Nat Nat) =
        (Except.ok none, ["temporalKeyColumn"]) ∧
      PyRasterFrame.temporalKeyColumn (⟨0, natEngineT⟩ : PyRasterFrame Nat Nat Nat) =
        (Except.ok (some ⟨7⟩), ["temporalKeyColumn"]) :=
  ⟨(temporal_key_column_optional ⟨0, natEngine⟩).1 rfl,
   (temporal_key_column_optional ⟨0, natEngineT⟩).2 7 rfl⟩
